import Mathlib

/-!
Verification of nordew/bet-test: the dispatcher and the retrying delivery client.

A shallow embedding of `internal/service/dispatcher.go` and
`internal/client/api_client.go`.

* Go `error` values are modelled by `GoError`, mirroring the two concrete
  error types the code creates (`errors.New` / `fmt.Errorf` without `%w`, and
  `fmt.Errorf` with `%w`).
* The outside world of `SendUserToAPIB` (JSON encoding, URL parsing, the HTTP
  round trip of every attempt, and which branch of every `select` fires) is an
  explicit `Env`; the function returns its result together with the sequence
  of POSTs and timer waits it performed and the log records it wrote.
* The `APIClient` interface used by the dispatcher is a record of state-passing
  functions, so that a client may answer differently on every call.
* Go strings are modelled by the type `String`; `.biz` is ASCII, so a suffix test on
  characters agrees with the byte-wise test of the Go library on UTF-8 text.
-/

namespace BetTest

/-! ## Errors -/

/-- Go error values: `errorString` carries only a message, `wrapError` carries
the formatted message and the error it wraps (what `fmt.Errorf` builds for a
`%w` verb). -/
inductive GoError where
  | errorString (msg : String)
  | wrapError (msg : String) (err : GoError)
  deriving DecidableEq, Repr

namespace GoError

/-- The `Error()` method. -/
def Error : GoError → String
  | errorString msg => msg
  | wrapError msg _ => msg

/-- The `Unwrap()` method (`errors.Unwrap`). -/
def Unwrap : GoError → Option GoError
  | errorString _ => none
  | wrapError _ err => some err

end GoError

/-- `fmt.Errorf(format ++ "%w", err)` where `text` is the formatted text in front
of the final `%w` verb. -/
def errorfW (text : String) (err : GoError) : GoError :=
  GoError.wrapError (text ++ err.Error) err

/-! ## Data model (`internal/model`) -/

/-- Modelled from the spec: `model.User` (identifier, name, email); the fields
are those used by the dispatcher and its tests. -/
structure User where
  ID : Int
  Name : String
  Email : String
  deriving DecidableEq, Repr

/-- Modelled from the spec: `model.UserPayload` (name, email). -/
structure UserPayload where
  Name : String
  Email : String
  deriving DecidableEq, Repr

/-! ## `internal/client/api_client.go` -/

def maxRetries : Nat := 3

def retryDelaySec : Nat := 2

/-- An HTTP request as built by `http.NewRequestWithContext` plus the headers set
on it. -/
structure Request where
  method : String
  url : String
  body : String
  header : List (String × String)
  deriving DecidableEq, Repr

/-- Result of `c.client.Do(req)`: a transport error, or a response with its
status code and the body as read by `io.ReadAll`. -/
inductive DoResult where
  | transportErr (err : GoError)
  | response (status : Int) (body : String)
  deriving DecidableEq, Repr

/-- Which case of `select { case <-time.After(..): case <-ctx.Done(): }` fired;
`cancelled` carries `ctx.Err()`. -/
inductive WaitResult where
  | elapsed
  | cancelled (ctxErr : GoError)
  deriving DecidableEq, Repr

/-- The world as seen by one call of `SendUserToAPIB`. `doReq` and `wait` are
indexed by the loop variable `attempt` (0-based). -/
structure Env where
  marshal : UserPayload → Except GoError String
  urlError : String → Option GoError
  doReq : Nat → Request → DoResult
  wait : Nat → WaitResult

/-- Observable actions of `SendUserToAPIB`, in program order. -/
inductive Event where
  | post (attempt : Nat) (req : Request) (res : DoResult)
  | delay (seconds : Nat) (res : WaitResult)
  deriving DecidableEq, Repr

/-- What a call of `SendUserToAPIB` did: returned error (`none` is `nil`), the
POSTs and waits performed, and the records written to the log. -/
structure SendRun where
  result : Option GoError
  trace : List Event
  logs : List String
  deriving DecidableEq, Repr

/-- `http.NewRequestWithContext(ctx, method, url, body)`. -/
def newRequestWithContext (env : Env) (method url body : String) :
    Except GoError Request :=
  match env.urlError url with
  | some e => .error e
  | none => .ok { method := method, url := url, body := body, header := [] }

/-- `req.Header.Set(key, value)`. -/
def Request.headerSet (req : Request) (key value : String) : Request :=
  { req with header := (key, value) :: req.header.filter (fun kv => kv.1 != key) }

/-- `resp.StatusCode >= 200 && resp.StatusCode < 300`. -/
def is2xx (status : Int) : Bool :=
  decide (status ≥ 200) && decide (status < 300)

/-- The error returned after the loop:
`fmt.Errorf("API B: failed after %d attempts: %w", maxRetries, lastErr)`. -/
def exhaustedError (lastErr : Option GoError) : GoError :=
  match lastErr with
  | some e => errorfW ("API B: failed after " ++ toString maxRetries ++ " attempts: ") e
  | none =>
    GoError.errorString
      ("API B: failed after " ++ toString maxRetries ++ " attempts: %!w(<nil>)")

/-- The error returned when `ctx.Done()` fires in a `select`:
`fmt.Errorf("API B: context cancelled during retry: %w", ctx.Err())`. -/
def cancelledError (ctxErr : GoError) : GoError :=
  errorfW "API B: context cancelled during retry: " ctxErr

/-- `fmt.Sprint` of `lastErr` under the `%v` verb. -/
def showLastErr : Option GoError → String
  | some e => e.Error
  | none => "<nil>"

/-- The `for attempt := 0; attempt < maxRetries; attempt++` loop of
`SendUserToAPIB`. The first argument is the number of iterations still allowed
by the loop condition, `maxRetries - attempt`; when it is `0` the loop exits and
the code after the loop runs. `trace` and `logs` accumulate what has happened
so far. -/
def sendLoop (env : Env) (payload : UserPayload) (apiBURL jsonData : String) :
    Nat → Nat → Option GoError → List Event → List String → SendRun
  | 0, _, lastErr, trace, logs =>
    { result := some (exhaustedError lastErr)
      trace := trace
      logs := logs ++ ["API B: failed to send user " ++ payload.Email ++ " after " ++
        toString maxRetries ++ " attempts: " ++ showLastErr lastErr] }
  | remaining + 1, attempt, _, trace, logs =>
    match newRequestWithContext env "POST" apiBURL jsonData with
    | .error err =>
      { result := some (errorfW "API B: failed to create request: " err)
        trace := trace
        logs := logs }
    | .ok req0 =>
      let req := req0.headerSet "Content-Type" "application/json"
      match env.doReq attempt req with
      | .transportErr err =>
        let lastErr := errorfW ("attempt " ++ toString (attempt + 1) ++ ": request failed: ") err
        let trace1 := trace ++ [Event.post attempt req (.transportErr err)]
        match env.wait attempt with
        | .elapsed =>
          sendLoop env payload apiBURL jsonData remaining (attempt + 1) (some lastErr)
            (trace1 ++ [Event.delay retryDelaySec .elapsed]) logs
        | .cancelled ctxErr =>
          { result := some (cancelledError ctxErr)
            trace := trace1 ++ [Event.delay retryDelaySec (.cancelled ctxErr)]
            logs := logs }
      | .response status respBody =>
        let trace1 := trace ++ [Event.post attempt req (.response status respBody)]
        if is2xx status then
          { result := none
            trace := trace1
            logs := logs ++ ["API B: sent user " ++ payload.Email ++ " (status " ++
              toString status ++ ")"] }
        else
          let lastErr := GoError.errorString
            ("attempt " ++ toString (attempt + 1) ++ ": non-2xx status: " ++
              toString status ++ ", body: " ++ respBody)
          match env.wait attempt with
          | .elapsed =>
            sendLoop env payload apiBURL jsonData remaining (attempt + 1) (some lastErr)
              (trace1 ++ [Event.delay retryDelaySec .elapsed]) logs
          | .cancelled ctxErr =>
            { result := some (cancelledError ctxErr)
              trace := trace1 ++ [Event.delay retryDelaySec (.cancelled ctxErr)]
              logs := logs }

/-- `(*apiClient).SendUserToAPIB`. -/
def SendUserToAPIB (env : Env) (payload : UserPayload) (apiBURL : String) : SendRun :=
  match env.marshal payload with
  | .error err =>
    { result := some (errorfW "API B: failed to marshal payload: " err)
      trace := []
      logs := [] }
  | .ok jsonData => sendLoop env payload apiBURL jsonData maxRetries 0 none [] []

/-- The request every iteration of the loop builds: a POST to `apiBURL` with the
encoded payload as body and `Content-Type: application/json`. -/
def postRequest (apiBURL jsonData : String) : Request :=
  Request.headerSet
    { method := "POST", url := apiBURL, body := jsonData, header := [] }
    "Content-Type" "application/json"

/-! ### Observations on a run -/

/-- The results of the POST attempts of a trace, in order. -/
def posts : List Event → List DoResult
  | [] => []
  | Event.post _ _ res :: rest => res :: posts rest
  | Event.delay _ _ :: rest => posts rest

/-- The outcomes of the timer waits of a trace, in order. -/
def delays : List Event → List (Nat × WaitResult)
  | [] => []
  | Event.post _ _ _ :: rest => delays rest
  | Event.delay s res :: rest => (s, res) :: delays rest

/-- An attempt succeeded: a response with a status in [200,300). -/
def DoResult.isSuccess : DoResult → Bool
  | .transportErr _ => false
  | .response status _ => is2xx status

/-- The failure reason the loop records in `lastErr` for a failed attempt
(`attempt` is the 0-based loop variable). -/
def failureReason (attempt : Nat) : DoResult → GoError
  | .transportErr err =>
    errorfW ("attempt " ++ toString (attempt + 1) ++ ": request failed: ") err
  | .response status respBody =>
    GoError.errorString
      ("attempt " ++ toString (attempt + 1) ++ ": non-2xx status: " ++
        toString status ++ ", body: " ++ respBody)

/-- The events of the first `n` iterations when each of them failed and waited
out the delay: for every attempt a POST followed by a completed wait. -/
def failedRounds (env : Env) (req : Request) : Nat → List Event
  | 0 => []
  | n + 1 =>
    failedRounds env req n ++
      [Event.post n req (env.doReq n req), Event.delay retryDelaySec .elapsed]

/-- The possible courses of a call of `SendUserToAPIB`, read off the control flow:
encoding fails; building the request fails; after `n` failed rounds attempt
`n` (0-based) succeeds; after `n` failed rounds attempt `n` fails and the wait
that follows is cancelled; or all `maxRetries` rounds fail. -/
inductive SendShape (env : Env) (payload : UserPayload) (apiBURL : String) :
    SendRun → Prop where
  | marshalFailed (e : GoError) (logs : List String) :
      env.marshal payload = .error e →
      SendShape env payload apiBURL
        { result := some (errorfW "API B: failed to marshal payload: " e)
          trace := [], logs := logs }
  | createFailed (jsonData : String) (e : GoError) (logs : List String) :
      env.marshal payload = .ok jsonData →
      env.urlError apiBURL = some e →
      SendShape env payload apiBURL
        { result := some (errorfW "API B: failed to create request: " e)
          trace := [], logs := logs }
  | succeeded (jsonData : String) (n : Nat) (logs : List String) :
      env.marshal payload = .ok jsonData →
      env.urlError apiBURL = none →
      n < maxRetries →
      (∀ i, i < n → (env.doReq i (postRequest apiBURL jsonData)).isSuccess = false ∧
        env.wait i = .elapsed) →
      (env.doReq n (postRequest apiBURL jsonData)).isSuccess = true →
      SendShape env payload apiBURL
        { result := none
          trace := failedRounds env (postRequest apiBURL jsonData) n ++
            [Event.post n (postRequest apiBURL jsonData)
              (env.doReq n (postRequest apiBURL jsonData))]
          logs := logs }
  | cancelled (jsonData : String) (n : Nat) (ctxErr : GoError) (logs : List String) :
      env.marshal payload = .ok jsonData →
      env.urlError apiBURL = none →
      n < maxRetries →
      (∀ i, i < n → (env.doReq i (postRequest apiBURL jsonData)).isSuccess = false ∧
        env.wait i = .elapsed) →
      (env.doReq n (postRequest apiBURL jsonData)).isSuccess = false →
      env.wait n = .cancelled ctxErr →
      SendShape env payload apiBURL
        { result := some (cancelledError ctxErr)
          trace := failedRounds env (postRequest apiBURL jsonData) n ++
            [Event.post n (postRequest apiBURL jsonData)
              (env.doReq n (postRequest apiBURL jsonData)),
             Event.delay retryDelaySec (.cancelled ctxErr)]
          logs := logs }
  | exhausted (jsonData : String) (logs : List String) :
      env.marshal payload = .ok jsonData →
      env.urlError apiBURL = none →
      (∀ i, i < maxRetries →
        (env.doReq i (postRequest apiBURL jsonData)).isSuccess = false ∧
        env.wait i = .elapsed) →
      SendShape env payload apiBURL
        { result := some (exhaustedError (some (failureReason (maxRetries - 1)
            (env.doReq (maxRetries - 1) (postRequest apiBURL jsonData)))))
          trace := failedRounds env (postRequest apiBURL jsonData) maxRetries
          logs := logs }

/-! ## `internal/service/dispatcher.go` -/

/-- `strings.HasSuffix(s, suffix)`:
`len(s) >= len(suffix) && s[len(s)-len(suffix):] == suffix`. -/
def HasSuffix (s suffix : String) : Bool :=
  decide (s.length ≥ suffix.length) &&
    (s.data.drop (s.length - suffix.length) == suffix.data)

/-- The `client.APIClient` interface. An implementation owns a state `σ` that
every call may read and change, so its answers may differ from call to call. -/
structure APIClient (σ : Type) where
  FetchUsers : σ → σ × Except GoError (List User)
  SendUserToAPIB : σ → UserPayload → String → σ × Option GoError

/-- What a call of `ProcessAndDispatchUsers` did: returned error (`none` is
`nil`), the client state it left, the payloads it passed to `SendUserToAPIB` in
call order, and the records it wrote to the log. -/
structure DispatchRun (σ : Type) where
  result : Option GoError
  state : σ
  sent : List UserPayload
  logs : List String

/-- The `for _, user := range users` loop of `ProcessAndDispatchUsers`, started in
client state `s`: the final client state, the payloads passed to
`SendUserToAPIB` and the log records written, both in program order. -/
def dispatchLoop {σ : Type} (c : APIClient σ) (apiBURL : String) :
    List User → σ → σ × List UserPayload × List String
  | [], s => (s, [], [])
  | user :: rest, s =>
    if HasSuffix user.Email ".biz" then
      let payload : UserPayload := { Name := user.Name, Email := user.Email }
      match c.SendUserToAPIB s payload apiBURL with
      | (s1, some err) =>
        let r := dispatchLoop c apiBURL rest s1
        (r.1, payload :: r.2.1,
          ("User " ++ user.Email ++ " (.biz): sending to API B") ::
          ("Send to API B error for " ++ user.Name ++ " (" ++ user.Email ++ "): " ++
            err.Error) :: r.2.2)
      | (s1, none) =>
        let r := dispatchLoop c apiBURL rest s1
        (r.1, payload :: r.2.1,
          ("User " ++ user.Email ++ " (.biz): sending to API B") ::
          ("User " ++ user.Name ++ " (" ++ user.Email ++ ") sent to API B") :: r.2.2)
    else
      let r := dispatchLoop c apiBURL rest s
      (r.1, r.2.1, ("User " ++ user.Email ++ " (not .biz): skipping") :: r.2.2)

/-- `(*dispatcher).ProcessAndDispatchUsers` for a dispatcher built by
`NewDispatcher(c, apiBURL)`, called with the client in state `s`. -/
def ProcessAndDispatchUsers {σ : Type} (c : APIClient σ) (apiBURL : String) (s : σ) :
    DispatchRun σ :=
  match c.FetchUsers s with
  | (s0, .error err) =>
    { result := some err
      state := s0
      sent := []
      logs := ["Fetch users error: " ++ err.Error] }
  | (s0, .ok users) =>
    let r := dispatchLoop c apiBURL users s0
    { result := none
      state := r.1
      sent := r.2.1
      logs := ("Fetched " ++ toString users.length ++ " users") :: r.2.2 ++
        ["User processing finished."] }

/-! ### Specification vocabulary for the dispatcher -/

/-- The spec's predicate: the email ends with the literal suffix `.biz`. -/
def emailEndsWithBiz (u : User) : Bool :=
  decide (".biz".data <:+ u.Email.data)

/-- The spec's projection of a user record to an outbound payload. -/
def toPayload (u : User) : UserPayload :=
  { Name := u.Name, Email := u.Email }

/-- The first log record the loop writes for a user. -/
def visitLine (u : User) : String :=
  if HasSuffix u.Email ".biz" then "User " ++ u.Email ++ " (.biz): sending to API B"
  else "User " ++ u.Email ++ " (not .biz): skipping"

/-- The log record for a failed delivery of `u` with error `e`. -/
def sendErrorLine (u : User) (e : GoError) : String :=
  "Send to API B error for " ++ u.Name ++ " (" ++ u.Email ++ "): " ++ e.Error

/-- The record the loop writes after the call of `SendUserToAPIB` for `u` returned. -/
def outcomeLine (u : User) : Option GoError → String
  | some err => sendErrorLine u err
  | none => "User " ++ u.Name ++ " (" ++ u.Email ++ ") sent to API B"

/-! ## Concrete inputs -/

/-- An environment that plays back at most `results.length` HTTP outcomes and
`waits.length` wait outcomes (afterwards: status 500, wait completed). -/
def scriptEnv (results : List DoResult) (waits : List WaitResult)
    (urlErr : Option GoError) : Env where
  marshal := fun p =>
    .ok ("\x7b\"name\":\"" ++ p.Name ++ "\",\"email\":\"" ++ p.Email ++ "\"\x7d")
  urlError := fun _ => urlErr
  doReq := fun i _ => results.getD i (.response 500 "")
  wait := fun i => waits.getD i .elapsed

def samplePayload : UserPayload := { Name := "Biz User", Email := "test@example.biz" }

def connRefused : GoError := GoError.errorString "dial tcp: connection refused"

def ctxCanceled : GoError := GoError.errorString "context canceled"

/-- The destination answers 500 to every attempt; no cancellation. -/
def envAlways500 : Env := scriptEnv [] [] none

/-- Transport error, then 503, then transport error; no cancellation. -/
def envMixedFailures : Env :=
  scriptEnv [.transportErr connRefused, .response 503 "busy", .transportErr connRefused]
    [] none

/-- Transport error, then 201. -/
def envSecondSucceeds : Env :=
  scriptEnv [.transportErr connRefused, .response 201 "created"] [] none

/-- Three 500 responses; the context is cancelled during the wait that follows the
third attempt. -/
def envCancelAfterThird : Env :=
  scriptEnv [] [.elapsed, .elapsed, .cancelled ctxCanceled] none

/-- A 500 response, a transport error, and the context is cancelled during the wait
that follows the second attempt. -/
def envCancelAfterSecond : Env :=
  scriptEnv [.response 500 "", .transportErr connRefused]
    [.elapsed, .cancelled ctxCanceled] none

/-- The destination URL does not parse. -/
def envBadURL : Env :=
  scriptEnv [] [] (some (GoError.errorString "parse \"://nowhere\": missing protocol scheme"))

/-- The test double of `dispatcher_test.go`: its state is `SentPayloads`; `fetch` is
the answer of `FetchUsersFunc` and `send` that of `SendUserToAPIBFunc`. -/
def MockAPIClient (fetch : Except GoError (List User))
    (send : UserPayload → String → Option GoError) : APIClient (List UserPayload) where
  FetchUsers := fun s => (s, fetch)
  SendUserToAPIB := fun s payload apiBURL => (s ++ [payload], send payload apiBURL)

/-- The users of `TestDispatcher_ProcessAndDispatchUsers_FilterBizEmails`. -/
def testUsers : List User :=
  [ { ID := 1, Name := "Leanne Graham", Email := "Sincere@april.biz" },
    { ID := 2, Name := "Ervin Howell", Email := "Shanna@melissa.tv" },
    { ID := 3, Name := "Clementine Bauch", Email := "Nathan@yesenia.net" },
    { ID := 4, Name := "Patricia Lebsack", Email := "Julianne.OConner@kory.org" },
    { ID := 5, Name := "Chelsey Dietrich", Email := "Lucio_Hettinger@annie.ca" },
    { ID := 6, Name := "Mrs. Dennis Schulist", Email := "Karley_Dach@jasper.info" },
    { ID := 7, Name := "Kurtis Weissnat", Email := "Telly.Hoeger@billy.biz" } ]

/-- Users whose emails differ from a `.biz` address only in letter case or by a
trailing character, around one real `.biz` address. -/
def caseUsers : List User :=
  [ { ID := 1, Name := "Upper", Email := "a@x.BIZ" },
    { ID := 2, Name := "Biz User", Email := "test@example.biz" },
    { ID := 3, Name := "Trailing", Email := "b@x.biz " },
    { ID := 4, Name := "Short", Email := "biz" } ]

def mockFetchError : GoError := GoError.errorString "mock fetch error"

def mockSendError : GoError := GoError.errorString "mock send error"

/-! ## Stepping the retry loop -/

theorem posts_append (xs ys : List Event) : posts (xs ++ ys) = posts xs ++ posts ys := by
  induction xs with
  | nil => rfl
  | cons x xs ih => cases x <;> simp [posts, ih]

theorem delays_append (xs ys : List Event) :
    delays (xs ++ ys) = delays xs ++ delays ys := by
  induction xs with
  | nil => rfl
  | cons x xs ih => cases x <;> simp [delays, ih]

/-- When the URL does not parse, an iteration returns the request-creation error
without touching the network or the timer. -/
theorem sendLoop_urlError (env : Env) (payload : UserPayload) (apiBURL jsonData : String)
    (remaining attempt : Nat) (lastErr : Option GoError) (trace : List Event)
    (logs : List String) (e : GoError) (hu : env.urlError apiBURL = some e) :
    sendLoop env payload apiBURL jsonData (remaining + 1) attempt lastErr trace logs =
      { result := some (errorfW "API B: failed to create request: " e)
        trace := trace
        logs := logs } := by
  simp [sendLoop, newRequestWithContext, hu]

/-- An iteration whose POST gets a 2xx response returns `nil` at once. -/
theorem sendLoop_success (env : Env) (payload : UserPayload) (apiBURL jsonData : String)
    (remaining attempt : Nat) (lastErr : Option GoError) (trace : List Event)
    (logs : List String) (hu : env.urlError apiBURL = none)
    (hs : (env.doReq attempt (postRequest apiBURL jsonData)).isSuccess = true) :
    ∃ line,
      sendLoop env payload apiBURL jsonData (remaining + 1) attempt lastErr trace logs =
        { result := none
          trace := trace ++
            [Event.post attempt (postRequest apiBURL jsonData)
              (env.doReq attempt (postRequest apiBURL jsonData))]
          logs := logs ++ [line] } := by
  unfold postRequest at hs
  cases hd : env.doReq attempt (Request.headerSet
      { method := "POST", url := apiBURL, body := jsonData, header := [] }
      "Content-Type" "application/json") with
  | transportErr err => simp [hd, DoResult.isSuccess] at hs
  | response status body =>
    simp only [hd, DoResult.isSuccess] at hs
    refine ⟨"API B: sent user " ++ payload.Email ++ " (status " ++ toString status ++ ")", ?_⟩
    simp [sendLoop, newRequestWithContext, hu, postRequest, hd, hs]

/-- A failed attempt (transport error or non-2xx status alike) whose wait runs to
completion records its failure reason and enters the next iteration. -/
theorem sendLoop_fail_elapsed (env : Env) (payload : UserPayload)
    (apiBURL jsonData : String) (remaining attempt : Nat) (lastErr : Option GoError)
    (trace : List Event) (logs : List String) (hu : env.urlError apiBURL = none)
    (hf : (env.doReq attempt (postRequest apiBURL jsonData)).isSuccess = false)
    (hw : env.wait attempt = .elapsed) :
    sendLoop env payload apiBURL jsonData (remaining + 1) attempt lastErr trace logs =
      sendLoop env payload apiBURL jsonData remaining (attempt + 1)
        (some (failureReason attempt (env.doReq attempt (postRequest apiBURL jsonData))))
        (trace ++
          [Event.post attempt (postRequest apiBURL jsonData)
              (env.doReq attempt (postRequest apiBURL jsonData)),
            Event.delay retryDelaySec .elapsed]) logs := by
  unfold postRequest at hf
  cases hd : env.doReq attempt (Request.headerSet
      { method := "POST", url := apiBURL, body := jsonData, header := [] }
      "Content-Type" "application/json") with
  | transportErr err =>
    simp [sendLoop, newRequestWithContext, hu, postRequest, hd, hw, failureReason]
  | response status body =>
    simp only [hd, DoResult.isSuccess] at hf
    simp [sendLoop, newRequestWithContext, hu, postRequest, hd, hw, hf, failureReason]

/-- A failed attempt (transport error or non-2xx status alike) whose wait is cut
short by `ctx.Done()` returns the cancellation error. -/
theorem sendLoop_fail_cancelled (env : Env) (payload : UserPayload)
    (apiBURL jsonData : String) (remaining attempt : Nat) (lastErr : Option GoError)
    (trace : List Event) (logs : List String) (ctxErr : GoError)
    (hu : env.urlError apiBURL = none)
    (hf : (env.doReq attempt (postRequest apiBURL jsonData)).isSuccess = false)
    (hw : env.wait attempt = .cancelled ctxErr) :
    sendLoop env payload apiBURL jsonData (remaining + 1) attempt lastErr trace logs =
      { result := some (cancelledError ctxErr)
        trace := trace ++
          [Event.post attempt (postRequest apiBURL jsonData)
              (env.doReq attempt (postRequest apiBURL jsonData)),
            Event.delay retryDelaySec (.cancelled ctxErr)]
        logs := logs } := by
  unfold postRequest at hf
  cases hd : env.doReq attempt (Request.headerSet
      { method := "POST", url := apiBURL, body := jsonData, header := [] }
      "Content-Type" "application/json") with
  | transportErr err =>
    simp [sendLoop, newRequestWithContext, hu, postRequest, hd, hw]
  | response status body =>
    simp only [hd, DoResult.isSuccess] at hf
    simp [sendLoop, newRequestWithContext, hu, postRequest, hd, hw, hf]

/-- Leaving the loop: the exhausted-retries error wrapping `lastErr`. -/
theorem sendLoop_zero (env : Env) (payload : UserPayload) (apiBURL jsonData : String)
    (attempt : Nat) (lastErr : Option GoError) (trace : List Event) (logs : List String) :
    (sendLoop env payload apiBURL jsonData 0 attempt lastErr trace logs).result =
        some (exhaustedError lastErr) ∧
      (sendLoop env payload apiBURL jsonData 0 attempt lastErr trace logs).trace = trace := by
  simp [sendLoop]

/-- Quantification over the indices below 1, 2 and 3, spelled out. -/
theorem forall_lt_one {P : Nat → Prop} (h0 : P 0) : ∀ i, i < 1 → P i := by
  intro i hi
  obtain rfl : i = 0 := by omega
  exact h0

theorem forall_lt_two {P : Nat → Prop} (h0 : P 0) (h1 : P 1) : ∀ i, i < 2 → P i := by
  intro i hi
  obtain rfl | rfl : i = 0 ∨ i = 1 := by omega
  · exact h0
  · exact h1

theorem forall_lt_three {P : Nat → Prop} (h0 : P 0) (h1 : P 1) (h2 : P 2) :
    ∀ i, i < 3 → P i := by
  intro i hi
  obtain rfl | rfl | rfl : i = 0 ∨ i = 1 ∨ i = 2 := by omega
  · exact h0
  · exact h1
  · exact h2

/-- Every call of `SendUserToAPIB` takes one of the courses of `SendShape`. -/
theorem SendUserToAPIB_shape (env : Env) (payload : UserPayload) (apiBURL : String) :
    SendShape env payload apiBURL (SendUserToAPIB env payload apiBURL) := by
  unfold SendUserToAPIB
  cases hm : env.marshal payload with
  | error e => exact SendShape.marshalFailed e [] hm
  | ok jsonData =>
    simp only
    cases hu : env.urlError apiBURL with
    | some e =>
      rw [show maxRetries = 2 + 1 from rfl, sendLoop_urlError env payload apiBURL jsonData 2 0 none [] [] e hu]
      exact SendShape.createFailed jsonData e [] hm hu
    | none =>
      rw [show maxRetries = 2 + 1 from rfl]
      -- attempt 1
      cases h0 : (env.doReq 0 (postRequest apiBURL jsonData)).isSuccess with
      | true =>
        obtain ⟨line, hrun⟩ :=
          sendLoop_success env payload apiBURL jsonData 2 0 none [] [] hu h0
        rw [hrun]
        exact SendShape.succeeded jsonData 0 _ hm hu (by decide) (by intro i hi; omega) h0
      | false =>
      cases w0 : env.wait 0 with
      | cancelled ctxErr =>
        rw [sendLoop_fail_cancelled env payload apiBURL jsonData 2 0 none [] [] ctxErr hu h0 w0]
        exact SendShape.cancelled jsonData 0 ctxErr _ hm hu (by decide)
          (by intro i hi; omega) h0 w0
      | elapsed =>
      rw [sendLoop_fail_elapsed env payload apiBURL jsonData 2 0 none [] [] hu h0 w0]
      -- attempt 2
      cases h1 : (env.doReq 1 (postRequest apiBURL jsonData)).isSuccess with
      | true =>
        obtain ⟨line, hrun⟩ :=
          sendLoop_success env payload apiBURL jsonData 1 (0 + 1) _ _ [] hu h1
        rw [hrun]
        exact SendShape.succeeded jsonData 1 _ hm hu (by decide)
          (forall_lt_one ⟨h0, w0⟩) h1
      | false =>
      cases w1 : env.wait 1 with
      | cancelled ctxErr =>
        rw [sendLoop_fail_cancelled env payload apiBURL jsonData 1 (0 + 1) _ _ [] ctxErr hu h1 w1]
        exact SendShape.cancelled jsonData 1 ctxErr _ hm hu (by decide)
          (forall_lt_one ⟨h0, w0⟩) h1 w1
      | elapsed =>
      rw [sendLoop_fail_elapsed env payload apiBURL jsonData 1 (0 + 1) _ _ [] hu h1 w1]
      -- attempt 3
      cases h2 : (env.doReq 2 (postRequest apiBURL jsonData)).isSuccess with
      | true =>
        obtain ⟨line, hrun⟩ :=
          sendLoop_success env payload apiBURL jsonData 0 (0 + 1 + 1) _ _ [] hu h2
        rw [hrun]
        exact SendShape.succeeded jsonData 2 _ hm hu (by decide)
          (forall_lt_two ⟨h0, w0⟩ ⟨h1, w1⟩) h2
      | false =>
      cases w2 : env.wait 2 with
      | cancelled ctxErr =>
        rw [sendLoop_fail_cancelled env payload apiBURL jsonData 0 (0 + 1 + 1) _ _ [] ctxErr hu h2 w2]
        exact SendShape.cancelled jsonData 2 ctxErr _ hm hu (by decide)
          (forall_lt_two ⟨h0, w0⟩ ⟨h1, w1⟩) h2 w2
      | elapsed =>
      rw [sendLoop_fail_elapsed env payload apiBURL jsonData 0 (0 + 1 + 1) _ _ [] hu h2 w2]
      exact SendShape.exhausted jsonData _ hm hu (forall_lt_three ⟨h0, w0⟩ ⟨h1, w1⟩ ⟨h2, w2⟩)

theorem posts_failedRounds (env : Env) (req : Request) (n : Nat) :
    posts (failedRounds env req n) = (List.range n).map (fun i => env.doReq i req) := by
  induction n with
  | zero => rfl
  | succ n ih => simp [failedRounds, posts_append, posts, List.range_succ, ih]

theorem delays_failedRounds (env : Env) (req : Request) (n : Nat) :
    delays (failedRounds env req n) =
      List.replicate n (retryDelaySec, WaitResult.elapsed) := by
  induction n with
  | zero => rfl
  | succ n ih => simp [failedRounds, delays_append, delays, List.replicate_succ', ih]

/-- A failed attempt is a transport error or a response with a status outside
[200,300). -/
theorem isSuccess_eq_false_iff (r : DoResult) :
    r.isSuccess = false ↔
      (∃ e, r = .transportErr e) ∨
        (∃ status body, r = .response status body ∧ (status < 200 ∨ 300 ≤ status)) := by
  cases r with
  | transportErr e => simp [DoResult.isSuccess]
  | response status body =>
    simp only [DoResult.isSuccess, is2xx, Bool.and_eq_false_iff, decide_eq_false_iff_not,
      reduceCtorEq, exists_false, false_or, DoResult.response.injEq]
    constructor
    · intro h
      exact ⟨status, body, ⟨rfl, rfl⟩, by omega⟩
    · rintro ⟨s, b, ⟨rfl, rfl⟩, h⟩
      omega

/-- A cancellation error is never an exhausted-retries error: the two differ as
values and in their messages. -/
theorem cancelledError_ne_exhaustedError (ctxErr : GoError) (lastErr : Option GoError) :
    cancelledError ctxErr ≠ exhaustedError lastErr ∧
      (cancelledError ctxErr).Error ≠ (exhaustedError lastErr).Error := by
  have hmsg : (cancelledError ctxErr).Error ≠ (exhaustedError lastErr).Error := by
    intro h
    cases lastErr with
    | none =>
      have h2 := congrArg String.data h
      simp [cancelledError, exhaustedError, errorfW, GoError.Error, maxRetries] at h2
    | some e =>
      have h2 := congrArg String.data h
      simp [cancelledError, exhaustedError, errorfW, GoError.Error, maxRetries] at h2
  exact ⟨fun h => hmsg (congrArg GoError.Error h), hmsg⟩

/-- A request-creation error is neither an exhausted-retries error nor a
cancellation error. -/
theorem createError_ne (e ctxErr : GoError) (lastErr : Option GoError) :
    (errorfW "API B: failed to create request: " e).Error ≠ (exhaustedError lastErr).Error ∧
      (errorfW "API B: failed to create request: " e).Error ≠
        (cancelledError ctxErr).Error := by
  constructor
  · intro h
    cases lastErr with
    | none =>
      have h2 := congrArg String.data h
      simp [exhaustedError, errorfW, GoError.Error, maxRetries] at h2
    | some e2 =>
      have h2 := congrArg String.data h
      simp [exhaustedError, errorfW, GoError.Error, maxRetries] at h2
  · intro h
    have h2 := congrArg String.data h
    simp [cancelledError, errorfW, GoError.Error] at h2

/-! ## The delivery client: claims C4 to C8 and C10 -/

/-- C4: in every run of `SendUserToAPIB` in which no wait is cancelled and every
attempt fails, each failure being either a transport error or a response with
a status outside [200,300), exactly 3 POSTs are made: the three attempts
0, 1, 2 of the loop, whatever the mix of the two kinds of failure. -/
theorem c4_all_attempts_fail_exactly_three_posts (env : Env) (payload : UserPayload)
    (apiBURL jsonData : String)
    (hm : env.marshal payload = .ok jsonData)
    (hu : env.urlError apiBURL = none)
    (hfail : ∀ i, i < maxRetries →
      (∃ e, env.doReq i (postRequest apiBURL jsonData) = .transportErr e) ∨
      (∃ status body, env.doReq i (postRequest apiBURL jsonData) = .response status body ∧
        (status < 200 ∨ 300 ≤ status)))
    (hwait : ∀ i, i < maxRetries → env.wait i = .elapsed) :
    (posts (SendUserToAPIB env payload apiBURL).trace).length = 3 ∧
      posts (SendUserToAPIB env payload apiBURL).trace =
        [env.doReq 0 (postRequest apiBURL jsonData),
         env.doReq 1 (postRequest apiBURL jsonData),
         env.doReq 2 (postRequest apiBURL jsonData)] := by
  have hf : ∀ i, i < maxRetries →
      (env.doReq i (postRequest apiBURL jsonData)).isSuccess = false :=
    fun i hi => (isSuccess_eq_false_iff _).2 (hfail i hi)
  have h := SendUserToAPIB_shape env payload apiBURL
  generalize SendUserToAPIB env payload apiBURL = run at h ⊢
  cases h with
  | marshalFailed e logs hm2 => simp [hm] at hm2
  | createFailed d e logs hm2 hu2 => simp [hu] at hu2
  | succeeded d n logs hm2 hu2 hn hpre hs =>
    obtain rfl : jsonData = d := by simpa [hm] using hm2
    simp [hf n hn] at hs
  | cancelled d n ctxErr logs hm2 hu2 hn hpre hfn hw =>
    simp [hwait n hn] at hw
  | exhausted d logs hm2 hu2 hall =>
    obtain rfl : jsonData = d := by simpa [hm] using hm2
    simp [posts_failedRounds, maxRetries, List.range_succ]

theorem c4_all_attempts_fail_exactly_three_posts_witness :
    (posts (SendUserToAPIB envMixedFailures samplePayload "https://mock.api.b").trace).length
        = 3 ∧
      posts (SendUserToAPIB envMixedFailures samplePayload "https://mock.api.b").trace =
        [.transportErr connRefused, .response 503 "busy", .transportErr connRefused] :=
  c4_all_attempts_fail_exactly_three_posts envMixedFailures samplePayload
    "https://mock.api.b" _ rfl rfl
    (forall_lt_three (Or.inl ⟨_, rfl⟩) (Or.inr ⟨_, _, rfl, by decide⟩) (Or.inl ⟨_, rfl⟩))
    (forall_lt_three rfl rfl rfl)

/-- The POST results of `n` failed rounds followed by attempt `n`, looked up by
position: below `n` the corresponding failed attempt, at `n` the last one. -/
theorem posts_rounds_getElem? (env : Env) (req : Request) (n i : Nat) (tail : List Event)
    (htail : posts tail = []) :
    (posts (failedRounds env req n ++ Event.post n req (env.doReq n req) :: tail))[i]? =
      if i ≤ n then some (env.doReq i req) else none := by
  simp only [posts_append, posts, posts_failedRounds, htail]
  rcases Nat.lt_trichotomy i n with h | h | h
  · rw [List.getElem?_append_left (by simpa using h)]
    simp [h, Nat.le_of_lt h]
  · subst h
    rw [List.getElem?_append_right (by simp)]
    simp
  · rw [List.getElem?_append_right (by simp; omega)]
    have h1 : ¬ i ≤ n := by omega
    have h2 : i - n ≠ 0 := by omega
    simp only [List.length_map, List.length_range, h1, if_false]
    obtain ⟨m, hm⟩ : ∃ m, i - n = m + 1 := ⟨i - n - 1, by omega⟩
    simp [hm]

/-- C5: if the k-th POST of a run of `SendUserToAPIB` (k counted from 1) got a
response with a status in [200,300), then the call returns `nil`, k is at most
3, every earlier attempt failed, exactly k POSTs were made, and that POST is
the last thing the run did: no attempt and no wait follows it. -/
theorem c5_success_on_attempt_k_stops (env : Env) (payload : UserPayload)
    (apiBURL : String) (k : Nat) (r : DoResult) (hk : 1 ≤ k)
    (hr : (posts (SendUserToAPIB env payload apiBURL).trace)[k - 1]? = some r)
    (hs : r.isSuccess = true) :
    (SendUserToAPIB env payload apiBURL).result = none ∧
      k ≤ maxRetries ∧
      (posts (SendUserToAPIB env payload apiBURL).trace).length = k ∧
      (∀ i r1, i < k - 1 →
        (posts (SendUserToAPIB env payload apiBURL).trace)[i]? = some r1 →
        r1.isSuccess = false) ∧
      (∃ req, (SendUserToAPIB env payload apiBURL).trace.getLast? =
        some (Event.post (k - 1) req r)) := by
  have h := SendUserToAPIB_shape env payload apiBURL
  generalize SendUserToAPIB env payload apiBURL = run at h hr ⊢
  cases h with
  | marshalFailed e logs hm => simp [posts] at hr
  | createFailed d e logs hm hu => simp [posts] at hr
  | succeeded d n logs hm hu hn hpre hsn =>
    simp only at hr
    rw [posts_rounds_getElem? env _ n (k - 1) [] rfl] at hr
    by_cases hle : k - 1 ≤ n
    · simp only [hle, if_true, Option.some.injEq] at hr
      rcases Nat.lt_or_eq_of_le hle with hlt | heq
      · have := (hpre (k - 1) hlt).1
        rw [hr, hs] at this
        cases this
      · subst hr
        refine ⟨rfl, by omega, ?_, ?_, ⟨postRequest apiBURL d, by simp [heq]⟩⟩
        · simp [posts_append, posts, posts_failedRounds]
          omega
        · intro i r1 hi hi2
          rw [posts_rounds_getElem? env _ n i [] rfl] at hi2
          have hin : i ≤ n := by omega
          simp only [hin, if_true, Option.some.injEq] at hi2
          rw [← hi2]
          exact (hpre i (by omega)).1
    · simp [hle] at hr
  | cancelled d n ctxErr logs hm hu hn hpre hfn hw =>
    simp only at hr
    rw [posts_rounds_getElem? env _ n (k - 1)
      [Event.delay retryDelaySec (.cancelled ctxErr)] rfl] at hr
    by_cases hle : k - 1 ≤ n
    · simp only [hle, if_true, Option.some.injEq] at hr
      have hfail : (env.doReq (k - 1) (postRequest apiBURL d)).isSuccess = false := by
        rcases Nat.lt_or_eq_of_le hle with hlt | heq
        · exact (hpre (k - 1) hlt).1
        · rw [heq]
          exact hfn
      rw [hr, hs] at hfail
      cases hfail
    · simp [hle] at hr
  | exhausted d logs hm hu hall =>
    simp only [posts_failedRounds] at hr
    by_cases hlt : k - 1 < maxRetries
    · rw [List.getElem?_map, List.getElem?_range hlt] at hr
      simp only [Option.map_some', Option.some.injEq] at hr
      have := (hall (k - 1) hlt).1
      rw [hr, hs] at this
      cases this
    · rw [List.getElem?_eq_none (by simpa using hlt)] at hr
      cases hr

theorem c5_success_on_attempt_k_stops_witness :
    (SendUserToAPIB envSecondSucceeds samplePayload "https://mock.api.b").result = none ∧
      2 ≤ maxRetries ∧
      (posts (SendUserToAPIB envSecondSucceeds samplePayload
        "https://mock.api.b").trace).length = 2 ∧
      (∀ i r1, i < 2 - 1 →
        (posts (SendUserToAPIB envSecondSucceeds samplePayload
          "https://mock.api.b").trace)[i]? = some r1 →
        r1.isSuccess = false) ∧
      (∃ req, (SendUserToAPIB envSecondSucceeds samplePayload
          "https://mock.api.b").trace.getLast? =
        some (Event.post (2 - 1) req (.response 201 "created"))) :=
  c5_success_on_attempt_k_stops envSecondSucceeds samplePayload "https://mock.api.b" 2
    (.response 201 "created") (by decide) (by decide) (by decide)

/-- C6, as stated, fails: with three 500 responses and the context cancelled during
the wait that follows the third attempt, all 3 attempts were made and none
succeeded, yet the call returns the cancellation error, which is not an
exhausted-retries error for any failure reason. -/
theorem c6_counterexample_cancel_after_third_attempt :
    (posts (SendUserToAPIB envCancelAfterThird samplePayload
        "https://mock.api.b").trace).length = 3 ∧
      (∀ r ∈ posts (SendUserToAPIB envCancelAfterThird samplePayload
        "https://mock.api.b").trace, r.isSuccess = false) ∧
      (SendUserToAPIB envCancelAfterThird samplePayload "https://mock.api.b").result =
        some (cancelledError ctxCanceled) ∧
      (∀ lastErr, (SendUserToAPIB envCancelAfterThird samplePayload
        "https://mock.api.b").result ≠ some (exhaustedError lastErr)) := by
  refine ⟨by decide, by decide, by decide, ?_⟩
  intro lastErr h
  have h1 : (SendUserToAPIB envCancelAfterThird samplePayload "https://mock.api.b").result =
      some (cancelledError ctxCanceled) := by decide
  rw [h1, Option.some.injEq] at h
  exact (cancelledError_ne_exhaustedError ctxCanceled lastErr).1 h

/-- C6, amended: whenever `SendUserToAPIB` has made all 3 attempts, none of them
succeeded, and no wait of the run was cancelled (in particular not the one
that follows the third attempt), it returns the exhausted-retries error: its
message states the attempt count 3 and it wraps the failure reason recorded
for the third attempt. -/
theorem c6_exhausted_error_wraps_last_reason (env : Env) (payload : UserPayload)
    (apiBURL : String)
    (hlen : (posts (SendUserToAPIB env payload apiBURL).trace).length = maxRetries)
    (hnone : ∀ r ∈ posts (SendUserToAPIB env payload apiBURL).trace, r.isSuccess = false)
    (hwait : ∀ d ∈ delays (SendUserToAPIB env payload apiBURL).trace,
      d.2 = WaitResult.elapsed) :
    ∃ r3, (posts (SendUserToAPIB env payload apiBURL).trace)[2]? = some r3 ∧
      (SendUserToAPIB env payload apiBURL).result =
        some (exhaustedError (some (failureReason 2 r3))) ∧
      (exhaustedError (some (failureReason 2 r3))).Error =
        "API B: failed after 3 attempts: " ++ (failureReason 2 r3).Error ∧
      (exhaustedError (some (failureReason 2 r3))).Unwrap = some (failureReason 2 r3) := by
  have h := SendUserToAPIB_shape env payload apiBURL
  generalize SendUserToAPIB env payload apiBURL = run at h hlen hnone hwait ⊢
  cases h with
  | marshalFailed e logs hm => simp [posts, maxRetries] at hlen
  | createFailed d e logs hm hu => simp [posts, maxRetries] at hlen
  | succeeded d n logs hm hu hn hpre hsn =>
    have := hnone (env.doReq n (postRequest apiBURL d)) (by simp [posts_append, posts])
    rw [hsn] at this
    cases this
  | cancelled d n ctxErr logs hm hu hn hpre hfn hw =>
    have := hwait (retryDelaySec, .cancelled ctxErr) (by simp [delays_append, delays])
    cases this
  | exhausted d logs hm hu hall =>
    refine ⟨env.doReq 2 (postRequest apiBURL d), ?_, rfl, rfl, rfl⟩
    simp [posts_failedRounds, maxRetries, List.range_succ]

theorem c6_exhausted_error_wraps_last_reason_witness :
    ∃ r3, (posts (SendUserToAPIB envMixedFailures samplePayload
        "https://mock.api.b").trace)[2]? = some r3 ∧
      (SendUserToAPIB envMixedFailures samplePayload "https://mock.api.b").result =
        some (exhaustedError (some (failureReason 2 r3))) ∧
      (exhaustedError (some (failureReason 2 r3))).Error =
        "API B: failed after 3 attempts: " ++ (failureReason 2 r3).Error ∧
      (exhaustedError (some (failureReason 2 r3))).Unwrap = some (failureReason 2 r3) :=
  c6_exhausted_error_wraps_last_reason envMixedFailures samplePayload "https://mock.api.b"
    (by decide) (by decide) (by decide)

/-- C7, as stated, fails: when the destination answers 500 three times and nothing
is cancelled, the 2-second delay is waited three times, not twice, and the last
thing the run does before returning the exhausted-retries error is the wait
that follows the third attempt. -/
theorem c7_counterexample_delay_after_final_attempt :
    (posts (SendUserToAPIB envAlways500 samplePayload "https://mock.api.b").trace).length
        = 3 ∧
      (∀ r ∈ posts (SendUserToAPIB envAlways500 samplePayload "https://mock.api.b").trace,
        r.isSuccess = false) ∧
      delays (SendUserToAPIB envAlways500 samplePayload "https://mock.api.b").trace =
        [(2, .elapsed), (2, .elapsed), (2, .elapsed)] ∧
      (delays (SendUserToAPIB envAlways500 samplePayload "https://mock.api.b").trace).length
        ≠ 2 ∧
      (SendUserToAPIB envAlways500 samplePayload "https://mock.api.b").trace.getLast? =
        some (Event.delay 2 .elapsed) ∧
      (SendUserToAPIB envAlways500 samplePayload "https://mock.api.b").result =
        some (exhaustedError (some (failureReason 2 (.response 500 "")))) := by
  refine ⟨by decide, by decide, by decide, by decide, by decide, by decide⟩

/-- C7, amended: in `SendUserToAPIB` the fixed 2-second delay is started after
every failed attempt, whether or not attempts remain (in any run, a failed POST
is directly followed by a wait of `retryDelaySec` = 2 seconds); in a run where
all 3 attempts fail and no wait is cancelled, the delay is waited exactly three
times, once after each attempt including the third, before the
exhausted-retries error is returned. -/
theorem c7_delay_after_every_failed_attempt (env : Env) (payload : UserPayload)
    (apiBURL : String) :
    retryDelaySec = 2 ∧
    (∀ idx attempt req r,
      (SendUserToAPIB env payload apiBURL).trace[idx]? = some (Event.post attempt req r) →
      r.isSuccess = false →
      ∃ w, (SendUserToAPIB env payload apiBURL).trace[idx + 1]? =
        some (Event.delay retryDelaySec w)) ∧
    (∀ jsonData, env.marshal payload = .ok jsonData → env.urlError apiBURL = none →
      (∀ i, i < maxRetries →
        (env.doReq i (postRequest apiBURL jsonData)).isSuccess = false) →
      (∀ i, i < maxRetries → env.wait i = .elapsed) →
      delays (SendUserToAPIB env payload apiBURL).trace =
          [(2, .elapsed), (2, .elapsed), (2, .elapsed)] ∧
        (SendUserToAPIB env payload apiBURL).trace =
          [Event.post 0 (postRequest apiBURL jsonData)
              (env.doReq 0 (postRequest apiBURL jsonData)),
            Event.delay 2 .elapsed,
            Event.post 1 (postRequest apiBURL jsonData)
              (env.doReq 1 (postRequest apiBURL jsonData)),
            Event.delay 2 .elapsed,
            Event.post 2 (postRequest apiBURL jsonData)
              (env.doReq 2 (postRequest apiBURL jsonData)),
            Event.delay 2 .elapsed] ∧
        (SendUserToAPIB env payload apiBURL).result =
          some (exhaustedError (some (failureReason 2
            (env.doReq 2 (postRequest apiBURL jsonData)))))) := by
  have h := SendUserToAPIB_shape env payload apiBURL
  generalize SendUserToAPIB env payload apiBURL = run at h ⊢
  refine ⟨rfl, ?_, ?_⟩
  · intro idx attempt req r hidx hr
    cases h with
    | marshalFailed e logs hm => simp at hidx
    | createFailed d e logs hm hu => simp at hidx
    | succeeded d n logs hm hu hn hpre hsn =>
      have hn3 : n = 0 ∨ n = 1 ∨ n = 2 := by simp only [maxRetries] at hn; omega
      rcases hn3 with rfl | rfl | rfl <;>
        simp only [failedRounds, List.nil_append, List.append_assoc, List.cons_append] at hidx ⊢ <;>
        rcases idx with _ | _ | _ | _ | _ | idx <;> simp at hidx ⊢ <;>
        (obtain ⟨_, _, rfl⟩ := hidx; rw [hsn] at hr; cases hr)
    | cancelled d n ctxErr logs hm hu hn hpre hfn hw =>
      have hn3 : n = 0 ∨ n = 1 ∨ n = 2 := by simp only [maxRetries] at hn; omega
      rcases hn3 with rfl | rfl | rfl <;>
        simp only [failedRounds, List.nil_append, List.append_assoc, List.cons_append] at hidx ⊢ <;>
        rcases idx with _ | _ | _ | _ | _ | _ | idx <;> simp at hidx ⊢
    | exhausted d logs hm hu hall =>
      simp only [failedRounds, maxRetries, List.nil_append, List.append_assoc,
        List.cons_append] at hidx ⊢
      rcases idx with _ | _ | _ | _ | _ | _ | idx <;> simp at hidx ⊢
  · intro jsonData hm hu hfail hwait
    cases h with
    | marshalFailed e logs hm2 => simp [hm] at hm2
    | createFailed d e logs hm2 hu2 => simp [hu] at hu2
    | succeeded d n logs hm2 hu2 hn hpre hs =>
      obtain rfl : jsonData = d := by simpa [hm] using hm2
      simp [hfail n hn] at hs
    | cancelled d n ctxErr logs hm2 hu2 hn hpre hfn hw =>
      simp [hwait n hn] at hw
    | exhausted d logs hm2 hu2 hall =>
      obtain rfl : jsonData = d := by simpa [hm] using hm2
      refine ⟨?_, ?_, rfl⟩
      · simp [delays_failedRounds, maxRetries, retryDelaySec, List.replicate]
      · simp [failedRounds, maxRetries, retryDelaySec]

theorem c7_delay_after_every_failed_attempt_witness :
    (∃ w, (SendUserToAPIB envAlways500 samplePayload "https://mock.api.b").trace[4 + 1]? =
        some (Event.delay retryDelaySec w)) ∧
      delays (SendUserToAPIB envAlways500 samplePayload "https://mock.api.b").trace =
        [(2, .elapsed), (2, .elapsed), (2, .elapsed)] :=
  ⟨(c7_delay_after_every_failed_attempt envAlways500 samplePayload
      "https://mock.api.b").2.1 4 2
      (postRequest "https://mock.api.b"
        "\x7b\"name\":\"Biz User\",\"email\":\"test@example.biz\"\x7d")
      (.response 500 "") (by decide) (by decide),
    ((c7_delay_after_every_failed_attempt envAlways500 samplePayload
      "https://mock.api.b").2.2 _ rfl rfl
      (forall_lt_three rfl rfl rfl) (forall_lt_three rfl rfl rfl)).1⟩

/-- C8: if the context is cancelled during the wait that follows failed attempt j,
with 1 ≤ j < 3, attempts 1..j having failed by transport error or by bad status
in any mix, then `SendUserToAPIB` makes exactly j POSTs, ends with that
cancelled wait, and returns the cancellation error: it wraps `ctx.Err()` and
differs, as a value and in its message, from every exhausted-retries error. -/
theorem c8_cancel_during_wait_aborts (env : Env) (payload : UserPayload)
    (apiBURL jsonData : String) (j : Nat) (ctxErr : GoError)
    (hm : env.marshal payload = .ok jsonData)
    (hu : env.urlError apiBURL = none)
    (hj1 : 1 ≤ j) (hj3 : j < maxRetries)
    (hfail : ∀ i, i < j →
      (∃ e, env.doReq i (postRequest apiBURL jsonData) = .transportErr e) ∨
      (∃ status body, env.doReq i (postRequest apiBURL jsonData) = .response status body ∧
        (status < 200 ∨ 300 ≤ status)))
    (hwait : ∀ i, i + 1 < j → env.wait i = .elapsed)
    (hcancel : env.wait (j - 1) = .cancelled ctxErr) :
    (SendUserToAPIB env payload apiBURL).result = some (cancelledError ctxErr) ∧
      (cancelledError ctxErr).Unwrap = some ctxErr ∧
      (cancelledError ctxErr).Error =
        "API B: context cancelled during retry: " ++ ctxErr.Error ∧
      (posts (SendUserToAPIB env payload apiBURL).trace).length = j ∧
      (SendUserToAPIB env payload apiBURL).trace.getLast? =
        some (Event.delay retryDelaySec (.cancelled ctxErr)) ∧
      (∀ lastErr, cancelledError ctxErr ≠ exhaustedError lastErr ∧
        (cancelledError ctxErr).Error ≠ (exhaustedError lastErr).Error) := by
  have hf : ∀ i, i < j → (env.doReq i (postRequest apiBURL jsonData)).isSuccess = false :=
    fun i hi => (isSuccess_eq_false_iff _).2 (hfail i hi)
  have h := SendUserToAPIB_shape env payload apiBURL
  generalize SendUserToAPIB env payload apiBURL = run at h ⊢
  refine ⟨?_, rfl, rfl, ?_, ?_, cancelledError_ne_exhaustedError ctxErr⟩ <;>
  cases h with
  | marshalFailed e logs hm2 => simp [hm] at hm2
  | createFailed d e logs hm2 hu2 => simp [hu] at hu2
  | succeeded d n logs hm2 hu2 hn hpre hs =>
    obtain rfl : jsonData = d := by simpa [hm] using hm2
    by_cases hnj : n < j
    · simp [hf n hnj] at hs
    · have := (hpre (j - 1) (by omega)).2
      simp [hcancel] at this
  | exhausted d logs hm2 hu2 hall =>
    have := (hall (j - 1) (by omega)).2
    simp [hcancel] at this
  | cancelled d n e logs hm2 hu2 hn hpre hfn hw =>
    have hnj : n = j - 1 := by
      rcases Nat.lt_trichotomy n (j - 1) with hlt | heq | hgt
      · have := hwait n (by omega)
        simp [this] at hw
      · exact heq
      · have := (hpre (j - 1) hgt).2
        simp [hcancel] at this
    subst hnj
    obtain rfl : ctxErr = e := by simpa [hcancel] using hw
    first
      | rfl
      | (simp [posts_append, posts, posts_failedRounds]; omega)
      | simp

theorem c8_cancel_during_wait_aborts_witness :
    (SendUserToAPIB envCancelAfterSecond samplePayload "https://mock.api.b").result =
        some (cancelledError ctxCanceled) ∧
      (cancelledError ctxCanceled).Unwrap = some ctxCanceled ∧
      (cancelledError ctxCanceled).Error =
        "API B: context cancelled during retry: " ++ ctxCanceled.Error ∧
      (posts (SendUserToAPIB envCancelAfterSecond samplePayload
        "https://mock.api.b").trace).length = 2 ∧
      (SendUserToAPIB envCancelAfterSecond samplePayload "https://mock.api.b").trace.getLast? =
        some (Event.delay retryDelaySec (.cancelled ctxCanceled)) ∧
      (∀ lastErr, cancelledError ctxCanceled ≠ exhaustedError lastErr ∧
        (cancelledError ctxCanceled).Error ≠ (exhaustedError lastErr).Error) :=
  c8_cancel_during_wait_aborts envCancelAfterSecond samplePayload "https://mock.api.b" _ 2
    ctxCanceled rfl rfl (by decide) (by decide)
    (forall_lt_two (Or.inr ⟨_, _, rfl, by decide⟩) (Or.inl ⟨_, rfl⟩))
    (fun i hi => by
      obtain rfl : i = 0 := by omega
      rfl)
    rfl

/-- C10: if building the POST request fails, `SendUserToAPIB` returns the
request-creation error, wrapping the builder's error, in the first iteration:
the run contains no POST and no wait, and the error differs in its message
(hence as a value) from every exhausted-retries error and every cancellation
error. -/
theorem c10_request_creation_error_is_immediate (env : Env) (payload : UserPayload)
    (apiBURL jsonData : String) (e : GoError)
    (hm : env.marshal payload = .ok jsonData)
    (hu : env.urlError apiBURL = some e) :
    (SendUserToAPIB env payload apiBURL).result =
        some (errorfW "API B: failed to create request: " e) ∧
      (errorfW "API B: failed to create request: " e).Unwrap = some e ∧
      (SendUserToAPIB env payload apiBURL).trace = [] ∧
      posts (SendUserToAPIB env payload apiBURL).trace = [] ∧
      delays (SendUserToAPIB env payload apiBURL).trace = [] ∧
      (∀ lastErr ctxErr,
        (errorfW "API B: failed to create request: " e).Error ≠
            (exhaustedError lastErr).Error ∧
          (errorfW "API B: failed to create request: " e).Error ≠
            (cancelledError ctxErr).Error ∧
          errorfW "API B: failed to create request: " e ≠ exhaustedError lastErr ∧
          errorfW "API B: failed to create request: " e ≠ cancelledError ctxErr) := by
  have hrun : SendUserToAPIB env payload apiBURL =
      { result := some (errorfW "API B: failed to create request: " e)
        trace := [], logs := [] } := by
    unfold SendUserToAPIB
    rw [hm]
    exact sendLoop_urlError env payload apiBURL jsonData 2 0 none [] [] e hu
  rw [hrun]
  refine ⟨rfl, rfl, rfl, rfl, rfl, ?_⟩
  intro lastErr ctxErr
  have hne := createError_ne e ctxErr lastErr
  exact ⟨hne.1, hne.2, fun h => hne.1 (congrArg GoError.Error h),
    fun h => hne.2 (congrArg GoError.Error h)⟩

theorem c10_request_creation_error_is_immediate_witness :
    (SendUserToAPIB envBadURL samplePayload "://nowhere").result =
        some (errorfW "API B: failed to create request: "
          (GoError.errorString "parse \"://nowhere\": missing protocol scheme")) ∧
      (SendUserToAPIB envBadURL samplePayload "://nowhere").trace = [] :=
  have h := c10_request_creation_error_is_immediate envBadURL samplePayload "://nowhere" _
    (GoError.errorString "parse \"://nowhere\": missing protocol scheme") rfl rfl
  ⟨h.1, h.2.2.1⟩

/-! ## The dispatcher: claims C1 to C3 and C9 -/

/-- `strings.HasSuffix` agrees with the suffix relation on the characters. -/
theorem HasSuffix_iff_isSuffix (s suffix : String) :
    HasSuffix s suffix = true ↔ suffix.data <:+ s.data := by
  rw [List.suffix_iff_eq_drop]
  simp only [HasSuffix, Bool.and_eq_true, decide_eq_true_eq, beq_iff_eq, String.length]
  constructor
  · rintro ⟨_, h⟩
    exact h.symm
  · intro h
    refine ⟨?_, h.symm⟩
    have := congrArg List.length h
    simp only [List.length_drop] at this
    by_contra hlt
    have h0 : suffix.data.length = 0 := by omega
    omega

/-- The loop's test is the spec's predicate. -/
theorem HasSuffix_biz (u : User) : HasSuffix u.Email ".biz" = emailEndsWithBiz u := by
  rw [Bool.eq_iff_iff, HasSuffix_iff_isSuffix]
  simp [emailEndsWithBiz]

/-- The spec's predicate holds exactly when the email is some text followed by the
four characters `.biz`. -/
theorem emailEndsWithBiz_iff (u : User) :
    emailEndsWithBiz u = true ↔ ∃ front : String, u.Email = front ++ ".biz" := by
  simp only [emailEndsWithBiz, decide_eq_true_eq]
  constructor
  · rintro ⟨t, ht⟩
    exact ⟨⟨t⟩, String.ext (by simpa using ht.symm)⟩
  · rintro ⟨front, h⟩
    exact ⟨front.data, by rw [h]; simp⟩

/-- One iteration of the loop on a user whose email does not end with `.biz`. -/
theorem dispatchLoop_skip {σ : Type} (c : APIClient σ) (apiBURL : String) (u : User)
    (rest : List User) (s : σ) (hb : HasSuffix u.Email ".biz" = false) :
    dispatchLoop c apiBURL (u :: rest) s =
      ((dispatchLoop c apiBURL rest s).1, (dispatchLoop c apiBURL rest s).2.1,
        visitLine u :: (dispatchLoop c apiBURL rest s).2.2) := by
  rw [dispatchLoop]
  simp [hb, visitLine]

/-- One iteration of the loop on a user whose email ends with `.biz`. -/
theorem dispatchLoop_send {σ : Type} (c : APIClient σ) (apiBURL : String) (u : User)
    (rest : List User) (s : σ) (hb : HasSuffix u.Email ".biz" = true) :
    dispatchLoop c apiBURL (u :: rest) s =
      ((dispatchLoop c apiBURL rest (c.SendUserToAPIB s (toPayload u) apiBURL).1).1,
        toPayload u ::
          (dispatchLoop c apiBURL rest (c.SendUserToAPIB s (toPayload u) apiBURL).1).2.1,
        visitLine u :: outcomeLine u (c.SendUserToAPIB s (toPayload u) apiBURL).2 ::
          (dispatchLoop c apiBURL rest (c.SendUserToAPIB s (toPayload u) apiBURL).1).2.2) := by
  rw [dispatchLoop]
  simp only [hb, if_true, visitLine, toPayload]
  rcases c.SendUserToAPIB s { Name := u.Name, Email := u.Email } apiBURL
    with ⟨s1, _ | err⟩ <;> rfl

/-- The payloads the loop passes to `SendUserToAPIB`, whatever the client answers. -/
theorem dispatchLoop_sent {σ : Type} (c : APIClient σ) (apiBURL : String)
    (users : List User) (s : σ) :
    (dispatchLoop c apiBURL users s).2.1 = (users.filter emailEndsWithBiz).map toPayload := by
  induction users generalizing s with
  | nil => rfl
  | cons u rest ih =>
    cases hb : HasSuffix u.Email ".biz" with
    | true =>
      have hb2 : emailEndsWithBiz u = true := by rw [← HasSuffix_biz]; exact hb
      rw [dispatchLoop_send c apiBURL u rest s hb]
      simp [List.filter_cons, hb2, ih]
    | false =>
      have hb2 : emailEndsWithBiz u = false := by rw [← HasSuffix_biz]; exact hb
      rw [dispatchLoop_skip c apiBURL u rest s hb]
      simp [List.filter_cons, hb2, ih]

/-- The log of the loop is one segment per user, in order, each starting with the
record written when that user is visited. -/
theorem dispatchLoop_logs {σ : Type} (c : APIClient σ) (apiBURL : String)
    (users : List User) (s : σ) :
    ∃ segments : List (List String),
      List.Forall₂ (fun u seg => ∃ tail, seg = visitLine u :: tail) users segments ∧
      (dispatchLoop c apiBURL users s).2.2 = segments.flatten := by
  induction users generalizing s with
  | nil => exact ⟨[], List.Forall₂.nil, rfl⟩
  | cons u rest ih =>
    cases hb : HasSuffix u.Email ".biz" with
    | true =>
      rw [dispatchLoop_send c apiBURL u rest s hb]
      obtain ⟨segs, hall, hlogs⟩ := ih (c.SendUserToAPIB s (toPayload u) apiBURL).1
      exact ⟨[visitLine u, outcomeLine u (c.SendUserToAPIB s (toPayload u) apiBURL).2] :: segs,
        List.Forall₂.cons ⟨_, rfl⟩ hall, by simp [hlogs]⟩
    | false =>
      rw [dispatchLoop_skip c apiBURL u rest s hb]
      obtain ⟨segs, hall, hlogs⟩ := ih s
      exact ⟨[visitLine u] :: segs, List.Forall₂.cons ⟨_, rfl⟩ hall, by simp [hlogs]⟩

/-- Running the loop over `front ++ back` is running it over `front` and then over
`back` from the client state reached. -/
theorem dispatchLoop_append {σ : Type} (c : APIClient σ) (apiBURL : String)
    (front back : List User) (s : σ) :
    dispatchLoop c apiBURL (front ++ back) s =
      ((dispatchLoop c apiBURL back (dispatchLoop c apiBURL front s).1).1,
        (dispatchLoop c apiBURL front s).2.1 ++
          (dispatchLoop c apiBURL back (dispatchLoop c apiBURL front s).1).2.1,
        (dispatchLoop c apiBURL front s).2.2 ++
          (dispatchLoop c apiBURL back (dispatchLoop c apiBURL front s).1).2.2) := by
  induction front generalizing s with
  | nil => simp [dispatchLoop]
  | cons u rest ih =>
    rw [List.cons_append]
    cases hb : HasSuffix u.Email ".biz" with
    | true =>
      rw [dispatchLoop_send c apiBURL u (rest ++ back) s hb,
        dispatchLoop_send c apiBURL u rest s hb, ih]
      simp
    | false =>
      rw [dispatchLoop_skip c apiBURL u (rest ++ back) s hb,
        dispatchLoop_skip c apiBURL u rest s hb, ih]
      simp

/-- The client state the loop leaves: the client's own `SendUserToAPIB` applied, in
order and with the dispatcher's URL, to the payload of every `.biz` user and to
nothing else. -/
theorem dispatchLoop_state {σ : Type} (c : APIClient σ) (apiBURL : String)
    (users : List User) (s : σ) :
    (dispatchLoop c apiBURL users s).1 =
      ((users.filter emailEndsWithBiz).map toPayload).foldl
        (fun st p => (c.SendUserToAPIB st p apiBURL).1) s := by
  induction users generalizing s with
  | nil => rfl
  | cons u rest ih =>
    cases hb : HasSuffix u.Email ".biz" with
    | true =>
      have hb2 : emailEndsWithBiz u = true := by rw [← HasSuffix_biz]; exact hb
      rw [dispatchLoop_send c apiBURL u rest s hb]
      simp [List.filter_cons, hb2, ih]
    | false =>
      have hb2 : emailEndsWithBiz u = false := by rw [← HasSuffix_biz]; exact hb
      rw [dispatchLoop_skip c apiBURL u rest s hb]
      simp [List.filter_cons, hb2, ih]

/-- Appending one element per step of a fold appends the whole list. -/
theorem foldl_record (recorded payloads : List UserPayload) :
    payloads.foldl (fun st p => st ++ [p]) recorded = recorded ++ payloads := by
  induction payloads generalizing recorded with
  | nil => simp
  | cons p rest ih => simp [ih]

/-- C1: when `FetchUsers` succeeds with `users`, then whatever `SendUserToAPIB`
answers on any call, the payloads `ProcessAndDispatchUsers` passes to it are,
in fetch order, the users whose email is some text followed by exactly `.biz`,
each with name and email copied unchanged; so the number of deliveries is the
number of such records. The client really receives these calls: the state it
is left in is its own `SendUserToAPIB` applied to exactly these payloads, in
order, with the dispatcher's URL, and the recording test double ends up with
exactly these payloads appended to `SentPayloads`. -/
theorem c1_sent_payloads_are_biz_users {σ : Type} (c : APIClient σ) (apiBURL : String)
    (s : σ) (users : List User)
    (hfetch : (c.FetchUsers s).2 = .ok users) :
    (ProcessAndDispatchUsers c apiBURL s).sent =
        (users.filter emailEndsWithBiz).map toPayload ∧
      (ProcessAndDispatchUsers c apiBURL s).sent.length = users.countP emailEndsWithBiz ∧
      (∀ u, emailEndsWithBiz u = true ↔ ∃ front : String, u.Email = front ++ ".biz") ∧
      (∀ u, (toPayload u).Name = u.Name ∧ (toPayload u).Email = u.Email) ∧
      (ProcessAndDispatchUsers c apiBURL s).state =
        ((users.filter emailEndsWithBiz).map toPayload).foldl
          (fun st p => (c.SendUserToAPIB st p apiBURL).1) (c.FetchUsers s).1 ∧
      (∀ (send : UserPayload → String → Option GoError) (recorded : List UserPayload),
        (ProcessAndDispatchUsers (MockAPIClient (.ok users) send) apiBURL recorded).state =
          recorded ++ (users.filter emailEndsWithBiz).map toPayload ∧
        (ProcessAndDispatchUsers (MockAPIClient (.ok users) send) apiBURL recorded).state =
          recorded ++
            (ProcessAndDispatchUsers (MockAPIClient (.ok users) send) apiBURL recorded).sent) := by
  have hsent : (ProcessAndDispatchUsers c apiBURL s).sent =
      (users.filter emailEndsWithBiz).map toPayload := by
    unfold ProcessAndDispatchUsers
    rcases hf : c.FetchUsers s with ⟨s0, res⟩
    rw [hf] at hfetch
    simp only at hfetch
    subst hfetch
    exact dispatchLoop_sent c apiBURL users s0
  have hstate : (ProcessAndDispatchUsers c apiBURL s).state =
      ((users.filter emailEndsWithBiz).map toPayload).foldl
        (fun st p => (c.SendUserToAPIB st p apiBURL).1) (c.FetchUsers s).1 := by
    unfold ProcessAndDispatchUsers
    rcases hf : c.FetchUsers s with ⟨s0, res⟩
    rw [hf] at hfetch
    simp only at hfetch
    subst hfetch
    exact dispatchLoop_state c apiBURL users s0
  have hmock : ∀ (send : UserPayload → String → Option GoError)
      (recorded : List UserPayload),
      (ProcessAndDispatchUsers (MockAPIClient (.ok users) send) apiBURL recorded).state =
        recorded ++ (users.filter emailEndsWithBiz).map toPayload := by
    intro send recorded
    show (dispatchLoop (MockAPIClient (.ok users) send) apiBURL users recorded).1 = _
    rw [dispatchLoop_state]
    exact foldl_record recorded _
  refine ⟨hsent, ?_, emailEndsWithBiz_iff, fun u => ⟨rfl, rfl⟩, hstate, ?_⟩
  · rw [hsent, List.length_map, List.countP_eq_length_filter]
  · intro send recorded
    refine ⟨hmock send recorded, ?_⟩
    rw [hmock send recorded]
    congr 1
    exact (dispatchLoop_sent (MockAPIClient (.ok users) send) apiBURL users recorded).symm

theorem c1_sent_payloads_are_biz_users_witness :
    (ProcessAndDispatchUsers (MockAPIClient (.ok testUsers) (fun _ _ => none))
        "https://mock.api.b" []).sent =
      [ { Name := "Leanne Graham", Email := "Sincere@april.biz" },
        { Name := "Kurtis Weissnat", Email := "Telly.Hoeger@billy.biz" } ] ∧
    (ProcessAndDispatchUsers (MockAPIClient (.ok testUsers) (fun _ _ => none))
        "https://mock.api.b" []).state =
      [ { Name := "Leanne Graham", Email := "Sincere@april.biz" },
        { Name := "Kurtis Weissnat", Email := "Telly.Hoeger@billy.biz" } ] ∧
    (ProcessAndDispatchUsers (MockAPIClient (.ok caseUsers) (fun _ _ => some mockSendError))
        "https://mock.api.b" []).sent =
      [ { Name := "Biz User", Email := "test@example.biz" } ] ∧
    (ProcessAndDispatchUsers (MockAPIClient (.ok caseUsers) (fun _ _ => some mockSendError))
        "https://mock.api.b" []).state =
      [ { Name := "Biz User", Email := "test@example.biz" } ] :=
  ⟨(c1_sent_payloads_are_biz_users (MockAPIClient (.ok testUsers) (fun _ _ => none))
      "https://mock.api.b" [] testUsers rfl).1.trans (by decide),
    (c1_sent_payloads_are_biz_users (MockAPIClient (.ok testUsers) (fun _ _ => none))
      "https://mock.api.b" [] testUsers rfl).2.2.2.2.1.trans (by decide),
    (c1_sent_payloads_are_biz_users
      (MockAPIClient (.ok caseUsers) (fun _ _ => some mockSendError))
      "https://mock.api.b" [] caseUsers rfl).1.trans (by decide),
    (c1_sent_payloads_are_biz_users
      (MockAPIClient (.ok caseUsers) (fun _ _ => some mockSendError))
      "https://mock.api.b" [] caseUsers rfl).2.2.2.2.1.trans (by decide)⟩

/-- C2: if `FetchUsers` returns an error `e`, `ProcessAndDispatchUsers` makes no
call to `SendUserToAPIB` (no payload is passed and the client is left in the
state `FetchUsers` produced) and returns exactly `e`. -/
theorem c2_fetch_error_is_returned {σ : Type} (c : APIClient σ) (apiBURL : String)
    (s : σ) (e : GoError)
    (hfetch : (c.FetchUsers s).2 = .error e) :
    (ProcessAndDispatchUsers c apiBURL s).result = some e ∧
      (ProcessAndDispatchUsers c apiBURL s).sent = [] ∧
      (ProcessAndDispatchUsers c apiBURL s).state = (c.FetchUsers s).1 := by
  unfold ProcessAndDispatchUsers
  rcases hf : c.FetchUsers s with ⟨s0, res⟩
  rw [hf] at hfetch
  simp only at hfetch
  subst hfetch
  exact ⟨rfl, rfl, rfl⟩

theorem c2_fetch_error_is_returned_witness :
    (ProcessAndDispatchUsers
        (MockAPIClient (.error mockFetchError) (fun _ _ => some mockSendError))
        "https://mock.api.b" []).result = some mockFetchError ∧
      (ProcessAndDispatchUsers
        (MockAPIClient (.error mockFetchError) (fun _ _ => some mockSendError))
        "https://mock.api.b" []).sent = [] ∧
      (ProcessAndDispatchUsers
        (MockAPIClient (.error mockFetchError) (fun _ _ => some mockSendError))
        "https://mock.api.b" []).state = [] :=
  c2_fetch_error_is_returned
    (MockAPIClient (.error mockFetchError) (fun _ _ => some mockSendError))
    "https://mock.api.b" [] mockFetchError rfl

/-- C3: whenever `FetchUsers` succeeds, `ProcessAndDispatchUsers` returns `nil`,
for every fetched list and every client, also one whose every send fails; no
send error stops the loop: the log is the fetch record, then one segment per
fetched user in fetch order, each starting with that user's visit record, then
the closing record, and every `.biz` user gets its call. -/
theorem c3_send_errors_never_abort {σ : Type} (c : APIClient σ) (apiBURL : String)
    (s : σ) (users : List User)
    (hfetch : (c.FetchUsers s).2 = .ok users) :
    (ProcessAndDispatchUsers c apiBURL s).result = none ∧
      (∃ segments : List (List String),
        List.Forall₂ (fun u seg => ∃ tail, seg = visitLine u :: tail) users segments ∧
        (ProcessAndDispatchUsers c apiBURL s).logs =
          ("Fetched " ++ toString users.length ++ " users") :: segments.flatten ++
            ["User processing finished."]) ∧
      (ProcessAndDispatchUsers c apiBURL s).sent.length =
        (users.filter (fun u => HasSuffix u.Email ".biz")).length := by
  unfold ProcessAndDispatchUsers
  rcases hf : c.FetchUsers s with ⟨s0, res⟩
  rw [hf] at hfetch
  simp only at hfetch
  subst hfetch
  obtain ⟨segs, hall, hlogs⟩ := dispatchLoop_logs c apiBURL users s0
  refine ⟨rfl, ⟨segs, hall, by simp [hlogs]⟩, ?_⟩
  simp only [dispatchLoop_sent, List.length_map]
  congr 2
  funext u
  exact (HasSuffix_biz u).symm

theorem c3_send_errors_never_abort_witness :
    (ProcessAndDispatchUsers (MockAPIClient (.ok caseUsers) (fun _ _ => some mockSendError))
        "https://mock.api.b" []).result = none ∧
      (ProcessAndDispatchUsers (MockAPIClient (.ok caseUsers) (fun _ _ => some mockSendError))
        "https://mock.api.b" []).sent.length = 1 :=
  have h := c3_send_errors_never_abort
    (MockAPIClient (.ok caseUsers) (fun _ _ => some mockSendError))
    "https://mock.api.b" [] caseUsers rfl
  ⟨h.1, h.2.2.trans (by decide)⟩

/-- C9: for every fetched user `u` whose email ends with `.biz`, if the call of
`SendUserToAPIB` made for `u` (in the client state reached after the users
before `u`) returns an error `e`, the log written by `ProcessAndDispatchUsers`
contains the record `Send to API B error for <name> (<email>): <e>`. -/
theorem c9_send_error_is_logged {σ : Type} (c : APIClient σ) (apiBURL : String)
    (s : σ) (front back : List User) (u : User) (e : GoError)
    (hfetch : (c.FetchUsers s).2 = .ok (front ++ u :: back))
    (hbiz : ∃ t : String, u.Email = t ++ ".biz")
    (hsend : (c.SendUserToAPIB (dispatchLoop c apiBURL front (c.FetchUsers s).1).1
      { Name := u.Name, Email := u.Email } apiBURL).2 = some e) :
    ("Send to API B error for " ++ u.Name ++ " (" ++ u.Email ++ "): " ++ e.Error) ∈
      (ProcessAndDispatchUsers c apiBURL s).logs := by
  have hb : HasSuffix u.Email ".biz" = true := by
    rw [HasSuffix_biz]
    exact (emailEndsWithBiz_iff u).2 hbiz
  unfold ProcessAndDispatchUsers
  rcases hf : c.FetchUsers s with ⟨s0, res⟩
  rw [hf] at hfetch hsend
  simp only at hfetch hsend
  subst hfetch
  simp only [dispatchLoop_append, dispatchLoop_send c apiBURL u back _ hb]
  have hline : outcomeLine u
      (c.SendUserToAPIB (dispatchLoop c apiBURL front s0).1 (toPayload u) apiBURL).2 =
      "Send to API B error for " ++ u.Name ++ " (" ++ u.Email ++ "): " ++ e.Error := by
    have : (c.SendUserToAPIB (dispatchLoop c apiBURL front s0).1 (toPayload u) apiBURL).2 =
        some e := hsend
    rw [this]
    rfl
  rw [hline]
  simp

theorem c9_send_error_is_logged_witness :
    "Send to API B error for Biz User (test@example.biz): mock send error" ∈
      (ProcessAndDispatchUsers (MockAPIClient (.ok caseUsers) (fun _ _ => some mockSendError))
        "https://mock.api.b" []).logs :=
  c9_send_error_is_logged (MockAPIClient (.ok caseUsers) (fun _ _ => some mockSendError))
    "https://mock.api.b" [] [{ ID := 1, Name := "Upper", Email := "a@x.BIZ" }]
    [{ ID := 3, Name := "Trailing", Email := "b@x.biz " },
      { ID := 4, Name := "Short", Email := "biz" }]
    { ID := 2, Name := "Biz User", Email := "test@example.biz" } mockSendError
    rfl ⟨"test@example", by decide⟩ rfl

end BetTest
